import Mathlib

/-!
# Verification of the FLAC compression-level estimator

Shallow embedding of the estimator pipeline of the `flac-convert-tool`
repository: the two near-duplicate implementations in `flac_analyzer.py`
and `flac_level_detection.py` (functions `analyze_flac_file`,
`estimate_compression_level`, `estimate_level_from_file_size`,
`get_flac_compression_level`).

Python floats are modelled as exact rationals (the decimal literals of the
source become the corresponding rationals); Python dictionaries with
optional keys become structures with `Option` fields; the filesystem and
the external `flac`/`metaflac` tool invocations become an explicit
environment record; a Python `KeyError` escaping a function becomes an
`Except.error`.
-/

namespace FlacTool

/-- The dictionary built by `analyze_flac_file` (both implementations), with
the keys the estimator pipeline reads.  A `none` field is an absent key.
`limited_analysis` is the boolean flag of the degraded mode and `hasError`
records the presence of the `error` key set on a failed analysis run. -/
structure Info where
  file_size : Nat
  limited_analysis : Bool := false
  hasError : Bool := false
  sample_rate : Option Int := none
  channels : Option Int := none
  bits_per_sample : Option Int := none
  duration : Option ℚ := none
  min_blocksize : Option ℚ := none
  max_blocksize : Option ℚ := none
  min_framesize : Option ℚ := none
  max_framesize : Option ℚ := none
  uncompressed_size : Option Int := none
  compression_ratio : Option ℚ := none
  deriving Repr, DecidableEq

/-- The `metrics` dictionary built by `flac_analyzer.estimate_compression_level`
(lines 97–114). -/
structure Metrics where
  compression_ratio : ℚ
  ratio_score : ℚ
  blocksize_variability : ℚ
  framesize_efficiency : ℚ
  deriving Repr, DecidableEq

/-- Result of `flac_analyzer.estimate_compression_level`: either the tuple
`(None, 0, "Missing required information")` or `(level, confidence, metrics)`. -/
inductive AResult where
  | insufficient
  | est (level : Nat) (confidence : ℚ) (metrics : Metrics)
  deriving Repr, DecidableEq

/-- The estimated level of an analyzer result, `none` for the insufficient-data
tuple. -/
def AResult.levelOf : AResult → Option Nat
  | .insufficient => none
  | .est l _ _ => some l

/-- The confidence of an analyzer result (the insufficient-data tuple carries
confidence 0). -/
def AResult.confOf : AResult → ℚ
  | .insufficient => 0
  | .est _ c _ => c

/-- The fixed table `level_ranges` of compression-ratio ranges, one per level
0–8 (identical in both source files, lines 123–133). -/
def levelRanges : List (ℚ × ℚ) :=
  [(0.70, 1.00), (0.67, 0.75), (0.65, 0.70), (0.62, 0.67), (0.60, 0.65),
   (0.58, 0.63), (0.56, 0.60), (0.54, 0.58), (0.50, 0.56)]

/-- The range of a given level (the table has exactly 9 entries, so the
default is never reached for levels 0–8). -/
def levelRange (l : Nat) : ℚ × ℚ := levelRanges.getD l (0, 0)

/-- Centrality of a ratio inside a range `[mn, mx]` (lines 139–144 of both
files): 1 at the midpoint, 0 at either edge, 0 for a zero-width range. -/
def centrality (r mn mx : ℚ) : ℚ :=
  if 0 < mx - mn then 1 - |(r - mn) / (mx - mn) - 1/2| * 2 else 0

/-- The `matches` list: every level whose range contains the ratio, paired
with its centrality, in table order (lines 136–145 of both files). -/
def matchesFor (r : ℚ) : List (Nat × ℚ) :=
  (List.range 9).filterMap fun l =>
    if (levelRange l).1 ≤ r ∧ r ≤ (levelRange l).2 then
      some (l, centrality r (levelRange l).1 (levelRange l).2)
    else none

/-- Python's `max(m :: ms, key=centrality)`: keep the current best, replace
only on a strictly larger key, so the first maximum wins. -/
def pickBest (m : Nat × ℚ) (ms : List (Nat × ℚ)) : Nat × ℚ :=
  ms.foldl (fun b x => if b.2 < x.2 then x else b) m

/-- Distance from a ratio to the nearer endpoint of a level's range
(the `key` of line 149 of both files). -/
def distToRange (r : ℚ) (l : Nat) : ℚ :=
  min |r - (levelRange l).1| |r - (levelRange l).2|

/-- Python's `min(range(9), key=distToRange r)`: scan 0..8 keeping the
first element with the smallest key (line 149 of both files). -/
def closestLevel (r : ℚ) : Nat :=
  (List.range 9).foldl (fun b x => if distToRange r x < distToRange r b then x else b) 0

/-- The tail of `flac_analyzer.estimate_compression_level` after the metrics
dictionary is built (lines 135–160): match the ratio against the table;
with no match return the closest level at fixed confidence 0.5; otherwise
take the first match of maximal centrality and blend its centrality with
the framesize and blocksize metrics (line 158). -/
def estCore (ratio : ℚ) (m : Metrics) : AResult :=
  match matchesFor ratio with
  | [] => .est (closestLevel ratio) (1/2) m
  | mm :: ms =>
    let best := pickBest mm ms
    .est best.1
      (0.7 * best.2 + 0.2 * m.framesize_efficiency
        + 0.1 * min 1 m.blocksize_variability) m

/-- The framesize step and matching tail of
`flac_analyzer.estimate_compression_level` (lines 110–160), run after the
blocksize variability `bv` has been computed: reads `max_framesize`
unconditionally (line 111) and, when it is positive, `min_framesize`
(line 112) — a missing key there escapes as a `KeyError` — then runs the
range-matching core. -/
def analyzerTail (info : Info) (ratio bv : ℚ) : Except String AResult :=
  match info.max_framesize with
  | none => .error "KeyError: max_framesize"
  | some mxf =>
    if 0 < mxf then
      match info.min_framesize with
      | none => .error "KeyError: min_framesize"
      | some mnf => .ok (estCore ratio ⟨ratio, 1 - ratio, bv, 1 - mnf / mxf⟩)
    else .ok (estCore ratio ⟨ratio, 1 - ratio, bv, 0⟩)

/-- `flac_analyzer.estimate_compression_level` (lines 87–160).  Reads the
three required keys, then computes the blocksize variability (lines
105–108): 0 for equal blocksizes, otherwise `max_blocksize / min_blocksize`,
where Python's division raises `ZeroDivisionError` when `min_blocksize` is
0 and the blocksizes differ; then the framesize metrics and the matching
core (`analyzerTail`). -/
def analyzerEstimate (info : Info) : Except String AResult :=
  match info.compression_ratio, info.min_blocksize, info.max_blocksize with
  | some ratio, some mnb, some mxb =>
    if mnb = mxb then analyzerTail info ratio 0
    else if mnb = 0 then .error "ZeroDivisionError: division by zero"
    else analyzerTail info ratio (mxb / mnb)
  | _, _, _ => .ok .insufficient

/-- `flac_level_detection.estimate_level_from_file_size` (lines 173–176):
always the default level 5 with confidence 0.1. -/
def estimateLevelFromFileSize : Nat × ℚ := (5, 0.1)

/-- The tail of `flac_level_detection.estimate_compression_level` after the
required keys are read (lines 135–171): match the ratio against the table;
with no match return the closest level at fixed confidence 0.5; otherwise
take the first match of maximal centrality and scale its centrality by 1.2
(capped at 1) or by 0.8 according to whether the blocksize variability
agrees with the level (lines 157–169). -/
def detectionCore (ratio mnb mxb : ℚ) : Nat × ℚ :=
  match matchesFor ratio with
  | [] => (closestLevel ratio, 1/2)
  | mm :: ms =>
    let best := pickBest mm ms
    if mnb = mxb then
      if best.1 ≤ 2 then (best.1, min (best.2 * 1.2) 1)
      else (best.1, best.2 * 0.8)
    else
      if 3 ≤ best.1 then (best.1, min (best.2 * 1.2) 1)
      else (best.1, best.2 * 0.8)

/-- `flac_level_detection.estimate_compression_level` (lines 103–171).
The limited-analysis flag routes to the file-size fallback (line 109);
missing required keys give `(5, 0.1)` (line 116); otherwise the
range-matching core `detectionCore` runs. -/
def detectionEstimate (info : Info) : Nat × ℚ :=
  if info.limited_analysis then estimateLevelFromFileSize
  else
    match info.compression_ratio, info.min_blocksize, info.max_blocksize with
    | some ratio, some mnb, some mxb => detectionCore ratio mnb mxb
    | _, _, _ => (5, 0.1)

/-- The outcome of parsing the two tool outputs on a fully successful run:
the numeric stream fields found among the `key: value` lines of `flac`
(already converted to numbers) and, when `metaflac` printed at least four
lines, the four block/frame sizes (lines 54–69 of `flac_level_detection.py`,
lines 44–59 of `flac_analyzer.py`). -/
structure RawParsed where
  sample_rate : Option Int
  channels : Option Int
  bits_per_sample : Option Int
  duration : Option ℚ
  meta : Option (Int × Int × Int × Int)
  deriving Repr, DecidableEq

/-- The environment a probe call runs in: whether the path exists, the file
size, whether the `flac`/`metaflac` binaries are available, whether the
analysis runs exit with status 0, whether the numeric conversions of the
parse succeed, and the parsed content of a successful run. -/
structure Env where
  pathExists : Bool
  fileSize : Nat
  toolsAvailable : Bool
  analysisOk : Bool
  parseOk : Bool
  raw : RawParsed
  deriving Repr, DecidableEq

/-- Python's `int()` applied to a float: truncation toward zero. -/
def pytrunc (q : ℚ) : ℤ := if q < 0 then ⌈q⌉ else ⌊q⌋

/-- The info dictionary built from a successful analysis run (lines 50–86 of
`flac_level_detection.py`, identically lines 40–76 of `flac_analyzer.py`):
block/frame sizes when `metaflac` printed four lines, and — when
`sample_rate`, `channels` and `bits_per_sample` are all present — the
derived `uncompressed_size` (with a missing `duration` defaulting to `'0'`)
and, when that is positive, the `compression_ratio`. -/
def buildInfo (fileSize : Nat) (raw : RawParsed) : Info :=
  let base : Info :=
    { file_size := fileSize
      sample_rate := raw.sample_rate
      channels := raw.channels
      bits_per_sample := raw.bits_per_sample
      duration := raw.duration
      min_blocksize := raw.meta.map fun m => (m.1 : ℚ)
      max_blocksize := raw.meta.map fun m => (m.2.1 : ℚ)
      min_framesize := raw.meta.map fun m => (m.2.2.1 : ℚ)
      max_framesize := raw.meta.map fun m => (m.2.2.2 : ℚ) }
  match raw.sample_rate, raw.channels, raw.bits_per_sample with
  | some sr, some ch, some bps =>
    let d : ℚ := raw.duration.getD 0
    let unc : ℤ := pytrunc (d * sr * ch * (bps / 8))
    { base with
      uncompressed_size := some unc
      compression_ratio := if 0 < unc then some ((fileSize : ℚ) / (unc : ℚ)) else none }
  | _, _, _ => base

/-- `flac_level_detection.analyze_flac_file` (lines 15–101): `None` for a
missing path; the limited-analysis dictionary when the version checks fail;
the limited-analysis dictionary with an `error` key when an analysis run
exits non-zero; `None` when a numeric conversion raises; otherwise the full
info dictionary. -/
def analyzeLD (env : Env) : Option Info :=
  if !env.pathExists then none
  else if !env.toolsAvailable then
    some { file_size := env.fileSize, limited_analysis := true }
  else if !env.analysisOk then
    some { file_size := env.fileSize, limited_analysis := true, hasError := true }
  else if !env.parseOk then none
  else some (buildInfo env.fileSize env.raw)

/-- The one exception `flac_analyzer.analyze_flac_file` raises to its caller. -/
inductive ProbeErr where
  | fileNotFound
  deriving Repr, DecidableEq

/-- `flac_analyzer.analyze_flac_file` (lines 18–85): raises
`FileNotFoundError` for a missing path (line 21, before the `try` block);
every other failure — missing tools, a non-zero analysis run, a parse
exception — is caught inside the function and yields `None`. -/
def analyzeFA (env : Env) : Except ProbeErr (Option Info) :=
  if !env.pathExists then .error .fileNotFound
  else if !env.toolsAvailable then .ok none
  else if !env.analysisOk then .ok none
  else if !env.parseOk then .ok none
  else .ok (some (buildInfo env.fileSize env.raw))

/-- `flac_level_detection.get_flac_compression_level` (lines 178–209):
analyze, defaulting to level 5 when analysis returns nothing; estimate; and
return the default level 5 when the confidence is below the threshold. -/
def getFlacCompressionLevel (env : Env) (threshold : ℚ) : Nat :=
  match analyzeLD env with
  | none => 5
  | some info =>
    let lc := detectionEstimate info
    if lc.2 < threshold then 5 else lc.1

/-! ## General lemmas about the matching core -/

/-- Python's `max` returns an element of its argument list. -/
theorem pickBest_mem (m : Nat × ℚ) (ms : List (Nat × ℚ)) :
    pickBest m ms ∈ m :: ms := by
  unfold pickBest
  induction ms generalizing m with
  | nil => simp
  | cons x xs ih =>
    simp only [List.foldl_cons]
    rcases List.mem_cons.mp (ih (if m.2 < x.2 then x else m)) with h | h
    · by_cases hc : m.2 < x.2 <;> simp [hc] at h ⊢ <;> simp [h]
    · simp [List.mem_cons, h]

/-- Membership in the matches list: the level is below 9, the ratio lies in
its range, and the paired value is its centrality. -/
theorem mem_matchesFor {r : ℚ} {x : Nat × ℚ} (h : x ∈ matchesFor r) :
    x.1 < 9 ∧ (levelRange x.1).1 ≤ r ∧ r ≤ (levelRange x.1).2 ∧
      x.2 = centrality r (levelRange x.1).1 (levelRange x.1).2 := by
  unfold matchesFor at h
  rcases List.mem_filterMap.mp h with ⟨l, hl, hf⟩
  by_cases hc : (levelRange l).1 ≤ r ∧ r ≤ (levelRange l).2
  · rw [if_pos hc] at hf
    injection hf with hf
    subst hf
    exact ⟨List.mem_range.mp hl, hc.1, hc.2, rfl⟩
  · simp [hc] at hf

/-- Centrality of a ratio inside its range is between 0 and 1. -/
theorem centrality_unit {r mn mx : ℚ} (h1 : mn ≤ r) (h2 : r ≤ mx) :
    0 ≤ centrality r mn mx ∧ centrality r mn mx ≤ 1 := by
  unfold centrality
  split
  · rename_i hpos
    have ht0 : 0 ≤ (r - mn) / (mx - mn) := by
      apply div_nonneg <;> linarith
    have ht1 : (r - mn) / (mx - mn) ≤ 1 := by
      rw [div_le_one hpos]; linarith
    have habs : |(r - mn) / (mx - mn) - 1/2| ≤ 1/2 := by
      rw [abs_le]; constructor <;> linarith
    have habs0 : 0 ≤ |(r - mn) / (mx - mn) - 1/2| := abs_nonneg _
    constructor <;> linarith
  · exact ⟨le_refl 0, by norm_num⟩

/-- Every centrality in the matches list is between 0 and 1. -/
theorem matchesFor_snd_unit {r : ℚ} {x : Nat × ℚ} (h : x ∈ matchesFor r) :
    0 ≤ x.2 ∧ x.2 ≤ 1 := by
  obtain ⟨-, h1, h2, he⟩ := mem_matchesFor h
  rw [he]
  exact centrality_unit h1 h2

/-- The argmin fold of `closestLevel` lands in the initial value or the list. -/
theorem foldl_argmin_mem (k : Nat → ℚ) (init : Nat) (l : List Nat) :
    l.foldl (fun b x => if k x < k b then x else b) init ∈ init :: l := by
  induction l generalizing init with
  | nil => simp
  | cons x xs ih =>
    simp only [List.foldl_cons]
    rcases List.mem_cons.mp (ih (if k x < k init then x else init)) with h | h
    · by_cases hc : k x < k init <;> simp [hc] at h ⊢ <;> simp [h]
    · simp [List.mem_cons, h]

/-- The argmin fold of `closestLevel` minimizes the key over the initial
value and the list. -/
theorem foldl_argmin_le (k : Nat → ℚ) (init : Nat) (l : List Nat) :
    k (l.foldl (fun b x => if k x < k b then x else b) init) ≤ k init ∧
      ∀ x ∈ l, k (l.foldl (fun b x => if k x < k b then x else b) init) ≤ k x := by
  induction l generalizing init with
  | nil => exact ⟨le_refl _, by simp⟩
  | cons x xs ih =>
    simp only [List.foldl_cons]
    obtain ⟨h1, h2⟩ := ih (if k x < k init then x else init)
    have hbound : k (if k x < k init then x else init) ≤ k init ∧
        k (if k x < k init then x else init) ≤ k x := by
      by_cases hc : k x < k init <;> simp [hc]
      · exact le_of_lt hc
      · exact le_of_not_lt hc
    refine ⟨le_trans h1 hbound.1, ?_⟩
    intro y hy
    rcases List.mem_cons.mp hy with rfl | hy
    · exact le_trans h1 hbound.2
    · exact h2 y hy

/-- The closest level is one of 0–8. -/
theorem closestLevel_lt9 (r : ℚ) : closestLevel r < 9 := by
  unfold closestLevel
  have h := foldl_argmin_mem (distToRange r) 0 (List.range 9)
  rcases List.mem_cons.mp h with he | hm
  · rw [he]; norm_num
  · exact List.mem_range.mp hm

/-- The closest level minimizes the distance to a range boundary over all
nine levels. -/
theorem closestLevel_isMin (r : ℚ) :
    ∀ l < 9, distToRange r (closestLevel r) ≤ distToRange r l := by
  intro l hl
  unfold closestLevel
  obtain ⟨h1, h2⟩ := foldl_argmin_le (distToRange r) 0 (List.range 9)
  rcases Nat.eq_zero_or_pos l with rfl | hp
  · exact h1
  · exact h2 l (List.mem_range.mpr hl)

/-- When the ratio is below every range minimum or above every range
maximum, no level matches. -/
theorem matchesFor_eq_nil {r : ℚ} (h : r < 1/2 ∨ 1 < r) : matchesFor r = [] := by
  unfold matchesFor
  rw [List.filterMap_eq_nil_iff]
  intro l hl
  have hl9 := List.mem_range.mp hl
  rw [if_neg]
  rintro ⟨h1, h2⟩
  interval_cases l <;> simp [levelRange, levelRanges] at h1 h2 <;>
    rcases h with h | h <;> linarith

/-- The level of the detection matching core is one of 0–8. -/
theorem detectionCore_fst_le8 (r a b : ℚ) : (detectionCore r a b).1 ≤ 8 := by
  unfold detectionCore
  split
  · simpa using Nat.lt_succ_iff.mp (closestLevel_lt9 r)
  · rename_i mm ms heq
    have hmem : pickBest mm ms ∈ matchesFor r := by
      rw [heq]; exact pickBest_mem mm ms
    have h9 := Nat.lt_succ_iff.mp (mem_matchesFor hmem).1
    dsimp only
    split_ifs <;> simpa using h9

/-- The confidence of the detection matching core is between 0 and 1. -/
theorem detectionCore_snd_unit (r a b : ℚ) :
    0 ≤ (detectionCore r a b).2 ∧ (detectionCore r a b).2 ≤ 1 := by
  unfold detectionCore
  split
  · norm_num
  · rename_i mm ms heq
    have hmem : pickBest mm ms ∈ matchesFor r := by
      rw [heq]; exact pickBest_mem mm ms
    obtain ⟨h0, h1⟩ := matchesFor_snd_unit hmem
    have hmin0 : (0:ℚ) ≤ min ((pickBest mm ms).2 * 1.2) 1 :=
      le_min (by nlinarith) (by norm_num)
    have hmin1 : min ((pickBest mm ms).2 * 1.2) 1 ≤ 1 := min_le_right _ _
    dsimp only
    split_ifs <;> constructor <;> dsimp only <;> nlinarith

/-- The level of the analyzer matching core, as an option. -/
theorem estCore_levelOf (r a b : ℚ) (m : Metrics) :
    (estCore r m).levelOf = some (detectionCore r a b).1 := by
  unfold estCore detectionCore
  cases h : matchesFor r with
  | nil => simp [AResult.levelOf]
  | cons mm ms =>
    simp only [AResult.levelOf]
    split_ifs <;> rfl

/-- The blended confidence of the analyzer matching core lies in [0,1] as
soon as the framesize efficiency lies in [0,1] and the blocksize
variability is nonnegative. -/
theorem estCore_conf_unit (r : ℚ) (m : Metrics)
    (hf0 : 0 ≤ m.framesize_efficiency) (hf1 : m.framesize_efficiency ≤ 1)
    (hb : 0 ≤ m.blocksize_variability) :
    0 ≤ (estCore r m).confOf ∧ (estCore r m).confOf ≤ 1 := by
  unfold estCore
  cases h : matchesFor r with
  | nil => norm_num [AResult.confOf]
  | cons mm ms =>
    have hmem : pickBest mm ms ∈ matchesFor r := by
      rw [h]; exact pickBest_mem mm ms
    obtain ⟨h0, h1⟩ := matchesFor_snd_unit hmem
    have hmin0 : (0:ℚ) ≤ min 1 m.blocksize_variability := le_min (by norm_num) hb
    have hmin1 : min 1 m.blocksize_variability ≤ 1 := min_le_left _ _
    simp only [AResult.confOf]
    constructor <;> nlinarith

/-- When both framesize keys are present, the analyzer tail succeeds and its
level agrees with the detection matching core's (for any blocksize inputs
of the latter, which only affect its confidence). -/
theorem analyzerTail_levelOf (info : Info) (r bv a b mnf mxf : ℚ)
    (hf1 : info.min_framesize = some mnf)
    (hf2 : info.max_framesize = some mxf) :
    ∃ res, analyzerTail info r bv = .ok res ∧
      res.levelOf = some (detectionCore r a b).1 := by
  simp only [analyzerTail, hf2]
  by_cases hpos : 0 < mxf
  · rw [if_pos hpos]
    simp only [hf1]
    exact ⟨_, rfl, estCore_levelOf r a b _⟩
  · rw [if_neg hpos]
    exact ⟨_, rfl, estCore_levelOf r a b _⟩

/-- When no range matches the ratio, the analyzer tail returns the closest
level at the fixed, unblended confidence 0.5. -/
theorem analyzerTail_nomatch (info : Info) (r bv mnf mxf : ℚ)
    (hf1 : info.min_framesize = some mnf)
    (hf2 : info.max_framesize = some mxf)
    (hnil : matchesFor r = []) :
    ∃ m : Metrics, analyzerTail info r bv = .ok (.est (closestLevel r) (1/2) m) := by
  simp only [analyzerTail, hf2]
  by_cases hpos : 0 < mxf
  · rw [if_pos hpos]
    simp only [hf1]
    exact ⟨⟨r, 1 - r, bv, 1 - mnf / mxf⟩, by simp [estCore, hnil]⟩
  · rw [if_neg hpos]
    exact ⟨⟨r, 1 - r, bv, 0⟩, by simp [estCore, hnil]⟩

/-- The analyzer tail's blended confidence lies in [0,1] as soon as the
blocksize variability argument is nonnegative and the framesize values
satisfy 0 ≤ min ≤ max. -/
theorem analyzerTail_conf_unit (info : Info) (ratio bv mnf mxf : ℚ)
    (hbv : 0 ≤ bv)
    (hf1 : info.min_framesize = some mnf)
    (hf2 : info.max_framesize = some mxf)
    (hfp : 0 ≤ mnf) (hfo : mnf ≤ mxf) :
    ∀ res, analyzerTail info ratio bv = .ok res →
      0 ≤ res.confOf ∧ res.confOf ≤ 1 := by
  intro res hres
  simp only [analyzerTail, hf2] at hres
  by_cases hpos : 0 < mxf
  · rw [if_pos hpos] at hres
    simp only [hf1, Except.ok.injEq] at hres
    subst hres
    refine estCore_conf_unit ratio _ ?_ ?_ hbv
    · show (0 : ℚ) ≤ 1 - mnf / mxf
      have h := (div_le_one hpos).mpr hfo
      linarith
    · show (1 : ℚ) - mnf / mxf ≤ 1
      have h := div_nonneg hfp (le_of_lt hpos)
      linarith
  · rw [if_neg hpos] at hres
    simp only [Except.ok.injEq] at hres
    subst hres
    exact estCore_conf_unit ratio _ (le_refl 0) zero_le_one hbv

/-- The level returned by `flac_level_detection.estimate_compression_level`
is one of 0–8, whatever the input dictionary. -/
theorem detectionEstimate_fst_le8 (info : Info) : (detectionEstimate info).1 ≤ 8 := by
  unfold detectionEstimate
  split
  · norm_num [estimateLevelFromFileSize]
  · split
    · exact detectionCore_fst_le8 _ _ _
    · norm_num

/-- The confidence returned by `flac_level_detection.estimate_compression_level`
is between 0 and 1, whatever the input dictionary. -/
theorem detectionEstimate_snd_unit (info : Info) :
    0 ≤ (detectionEstimate info).2 ∧ (detectionEstimate info).2 ≤ 1 := by
  unfold detectionEstimate
  split
  · norm_num [estimateLevelFromFileSize]
  · split
    · exact detectionCore_snd_unit _ _ _
    · norm_num

/-! ## Concrete test inputs -/

/-- The scenario input of the spec's test case: ratio 0.59, blocksizes
4096/4096, framesizes 10/20. -/
def info59 : Info :=
  { file_size := 1000, compression_ratio := some 0.59,
    min_blocksize := some 4096, max_blocksize := some 4096,
    min_framesize := some 10, max_framesize := some 20 }

/-- A dictionary with the three required keys but no framesize keys. -/
def infoNoFrame : Info :=
  { file_size := 1000, compression_ratio := some 0.59,
    min_blocksize := some 4096, max_blocksize := some 4096 }

/-- A dictionary with `max_framesize` present but `min_framesize` absent. -/
def infoNoMinFrame : Info :=
  { file_size := 1000, compression_ratio := some 0.59,
    min_blocksize := some 4096, max_blocksize := some 4096,
    max_framesize := some 20 }

/-- Finite numeric metrics with `min_framesize` far above `max_framesize`. -/
def infoBadFrame : Info :=
  { file_size := 1000, compression_ratio := some 0.58,
    min_blocksize := some 4096, max_blocksize := some 4096,
    min_framesize := some 200, max_framesize := some 20 }

/-- A ratio below every table range. -/
def infoLowRatio : Info :=
  { file_size := 1000, compression_ratio := some 0.4,
    min_blocksize := some 4096, max_blocksize := some 4096,
    min_framesize := some 10, max_framesize := some 20 }

/-! ## Claim C1 -/

/-- C1, as stated, is false: the observed ratio 0.59 lies not only in
level 5's range [0.58, 0.63] but also in level 6's range [0.56, 0.60],
where its centrality 0.5 beats level 5's 0.4, so
`flac_analyzer.estimate_compression_level` returns level 6 (with blended
confidence 0.45), not level 5 with confidence 0.38. -/
theorem c1_counterexample :
    analyzerEstimate info59 = .ok (.est 6 0.45 ⟨0.59, 0.41, 0, 0.5⟩) ∧
      (6 : Nat) ≠ 5 ∧ (0.45 : ℚ) ≠ 0.38 := by
  refine ⟨?_, by norm_num, by norm_num⟩
  norm_num [analyzerEstimate, analyzerTail, estCore, info59, matchesFor,
    levelRange, levelRanges, centrality, List.range, List.range.loop,
    List.filterMap, pickBest, List.foldl, abs_of_nonneg, abs_of_nonpos]

/-- C1 amended: for ratio 0.59, blocksizes 4096/4096, framesizes 10/20, the
matches are level 5 with centrality 0.4 and level 6 with centrality 0.5;
the estimator picks level 6, with framesize efficiency 0.5, blocksize
variability 0, and blended confidence 0.7×0.5 + 0.2×0.5 + 0.1×0 = 0.45
(the detection copy also picks level 6, scaling 0.5 by 0.8 to 0.4). -/
theorem c1_scenario :
    matchesFor 0.59 = [(5, 0.4), (6, 0.5)] ∧
    analyzerEstimate info59 = .ok (.est 6 0.45 ⟨0.59, 0.41, 0, 0.5⟩) ∧
    detectionEstimate info59 = (6, 0.4) := by
  refine ⟨?_, ?_, ?_⟩ <;>
  norm_num [analyzerEstimate, analyzerTail, detectionEstimate, detectionCore,
    estCore, info59, matchesFor, levelRange, levelRanges, centrality,
    List.range, List.range.loop, List.filterMap, pickBest, List.foldl,
    abs_of_nonneg, abs_of_nonpos]

/-! ## Claim C8 -/

/-- The scenario input with ratio 0.58, a boundary shared by level 5's
minimum and level 7's maximum. -/
def info58 : Info :=
  { file_size := 1000, compression_ratio := some 0.58,
    min_blocksize := some 4096, max_blocksize := some 4096,
    min_framesize := some 10, max_framesize := some 20 }

/-- C8, as stated, is false: at ratio 0.58 — the boundary shared by level
5's range minimum and level 7's range maximum — both levels 5 and 7 are
indeed collected with centrality 0, but 0.58 is also the exact midpoint of
level 6's range [0.56, 0.60] (centrality 1), so the estimator returns
level 6, not the lower shared-boundary level 5. -/
theorem c8_counterexample :
    matchesFor 0.58 = [(5, 0), (6, 1), (7, 0)] ∧
    (detectionEstimate info58).1 = 6 ∧ (6 : Nat) ≠ 5 := by
  refine ⟨?_, ?_, by norm_num⟩ <;>
  norm_num [detectionEstimate, detectionCore, info58, matchesFor, levelRange,
    levelRanges, centrality, List.range, List.range.loop, List.filterMap,
    pickBest, List.foldl, abs_of_nonneg, abs_of_nonpos]

set_option maxHeartbeats 2000000 in
/-- C8 amended: at each of the six boundary ratios shared by two level
ranges (0.70, 0.67, 0.65, 0.60, 0.58, 0.56), both sharing levels are
collected as matches with centrality 0 — but the boundary also lies inside
a third range with positive centrality, and the estimator returns that
third level (for any blocksize inputs), not the lower sharing level. -/
theorem c8_boundaries :
    (matchesFor 0.70 = [(0, 0), (1, 0.75), (2, 0)] ∧
      ∀ a b : ℚ, (detectionCore 0.70 a b).1 = 1) ∧
    (matchesFor 0.67 = [(1, 0), (2, 0.8), (3, 0)] ∧
      ∀ a b : ℚ, (detectionCore 0.67 a b).1 = 2) ∧
    (matchesFor 0.65 = [(2, 0), (3, 0.8), (4, 0)] ∧
      ∀ a b : ℚ, (detectionCore 0.65 a b).1 = 3) ∧
    (matchesFor 0.60 = [(4, 0), (5, 0.8), (6, 0)] ∧
      ∀ a b : ℚ, (detectionCore 0.60 a b).1 = 5) ∧
    (matchesFor 0.58 = [(5, 0), (6, 1), (7, 0)] ∧
      ∀ a b : ℚ, (detectionCore 0.58 a b).1 = 6) ∧
    (matchesFor 0.56 = [(6, 0), (7, 1), (8, 0)] ∧
      ∀ a b : ℚ, (detectionCore 0.56 a b).1 = 7) := by
  refine ⟨⟨?_, ?_⟩, ⟨?_, ?_⟩, ⟨?_, ?_⟩, ⟨?_, ?_⟩, ⟨?_, ?_⟩, ⟨?_, ?_⟩⟩ <;>
    intros <;>
    norm_num [detectionCore, matchesFor, levelRange, levelRanges, centrality,
      List.range, List.range.loop, List.filterMap, pickBest, List.foldl,
      abs_of_nonneg, abs_of_nonpos] <;>
    split_ifs <;> norm_num

/-! ## Claim C9 -/

/-- C9: when the observed ratio lies outside all nine table ranges (below
0.50 or above 1.00), both estimators return the level whose range boundary
is numerically closest to the ratio, at the fixed confidence 0.5 — the
framesize and blocksize metrics are not blended in.  The blocksize
hypothesis (equal blocksizes, or a nonzero minimum) only keeps the
analyzer's earlier blocksize division (line 108) well-defined; it plays no
role in the out-of-range branch itself. -/
theorem c9_out_of_range (info : Info) (r mnb mxb mnf mxf : ℚ)
    (hlim : info.limited_analysis = false)
    (hr : info.compression_ratio = some r)
    (hb1 : info.min_blocksize = some mnb) (hb2 : info.max_blocksize = some mxb)
    (hf1 : info.min_framesize = some mnf) (hf2 : info.max_framesize = some mxf)
    (hblock : mnb = mxb ∨ mnb ≠ 0)
    (hout : r < 1/2 ∨ 1 < r) :
    (∃ m : Metrics, analyzerEstimate info = .ok (.est (closestLevel r) (1/2) m)) ∧
    detectionEstimate info = (closestLevel r, 1/2) ∧
    ∀ l < 9, distToRange r (closestLevel r) ≤ distToRange r l := by
  have hnil := matchesFor_eq_nil hout
  refine ⟨?_, ?_, closestLevel_isMin r⟩
  · simp only [analyzerEstimate, hr, hb1, hb2]
    by_cases hbe : mnb = mxb
    · rw [if_pos hbe]
      exact analyzerTail_nomatch info r 0 mnf mxf hf1 hf2 hnil
    · rw [if_neg hbe, if_neg (hblock.resolve_left hbe)]
      exact analyzerTail_nomatch info r (mxb / mnb) mnf mxf hf1 hf2 hnil
  · simp [detectionEstimate, hlim, hr, hb1, hb2, detectionCore, hnil]

/-- Witness for C9 at the concrete out-of-range ratio 0.4. -/
theorem c9_witness :
    (∃ m : Metrics,
      analyzerEstimate infoLowRatio = .ok (.est (closestLevel 0.4) (1/2) m)) ∧
    detectionEstimate infoLowRatio = (closestLevel 0.4, 1/2) ∧
    ∀ l < 9, distToRange 0.4 (closestLevel 0.4) ≤ distToRange 0.4 l :=
  c9_out_of_range infoLowRatio 0.4 4096 4096 10 20 rfl rfl rfl rfl rfl rfl
    (Or.inl rfl) (Or.inl (by norm_num))

/-! ## Claim C2 -/

/-- An empty parse outcome. -/
def rawEmpty : RawParsed := ⟨none, none, none, none, none⟩

/-- An environment whose path exists but whose analysis tools are absent. -/
def envNoTools : Env :=
  { pathExists := true, fileSize := 123, toolsAvailable := false,
    analysisOk := true, parseOk := true, raw := rawEmpty }

/-- An environment whose path does not exist. -/
def envMissingPath : Env :=
  { pathExists := false, fileSize := 0, toolsAvailable := true,
    analysisOk := true, parseOk := true, raw := rawEmpty }

/-- An environment whose analysis run exits with a non-zero status. -/
def envFailedRun : Env :=
  { pathExists := true, fileSize := 123, toolsAvailable := true,
    analysisOk := false, parseOk := true, raw := rawEmpty }

/-- C2: in every environment and for every threshold,
`get_flac_compression_level` returns a level in [0,8] (it is a total
function of the modelled environment, so it raises nothing); when the tool
binaries are absent it returns exactly 5 whatever the threshold; and on any
analysis failure (`None` from `analyze_flac_file`, or a limited-analysis
dictionary) it returns the default 5. -/
theorem c2_gate_safe (env : Env) (t : ℚ) :
    getFlacCompressionLevel env t ≤ 8 ∧
    (env.toolsAvailable = false → getFlacCompressionLevel env t = 5) ∧
    (analyzeLD env = none → getFlacCompressionLevel env t = 5) ∧
    (∀ info, analyzeLD env = some info → info.limited_analysis = true →
      getFlacCompressionLevel env t = 5) := by
  refine ⟨?_, ?_, ?_, ?_⟩
  · unfold getFlacCompressionLevel
    cases h : analyzeLD env with
    | none => norm_num
    | some info =>
      dsimp only
      split_ifs
      · norm_num
      · exact detectionEstimate_fst_le8 info
  · intro htools
    cases hp : env.pathExists with
    | false => simp [getFlacCompressionLevel, analyzeLD, hp]
    | true =>
      simp [getFlacCompressionLevel, analyzeLD, hp, htools, detectionEstimate,
        estimateLevelFromFileSize]
  · intro h
    simp [getFlacCompressionLevel, h]
  · intro info h hl
    simp [getFlacCompressionLevel, h, detectionEstimate, hl,
      estimateLevelFromFileSize]

/-- Witness for C2: with the tools absent, the returned level is exactly 5. -/
theorem c2_witness : getFlacCompressionLevel envNoTools 0.7 = 5 :=
  (c2_gate_safe envNoTools 0.7).2.1 rfl

/-! ## Claim C5 -/

/-- C5: `flac_analyzer.analyze_flac_file` raises to its direct caller
exactly when the path does not exist (and then a `FileNotFoundError`) —
every other failure is absorbed inside it — while the top-level
`get_flac_compression_level` absorbs the missing path and returns the
default level 5. -/
theorem c5_probe_notfound (env : Env) (t : ℚ) :
    ((∃ e, analyzeFA env = .error e) ↔ env.pathExists = false) ∧
    (env.pathExists = false → analyzeFA env = .error .fileNotFound) ∧
    (env.pathExists = false → getFlacCompressionLevel env t = 5) := by
  refine ⟨⟨?_, ?_⟩, ?_, ?_⟩
  · rintro ⟨e, he⟩
    cases hp : env.pathExists with
    | false => rfl
    | true =>
      exfalso
      unfold analyzeFA at he
      simp only [hp] at he
      split_ifs at he
      all_goals simp_all
  · intro hp
    exact ⟨.fileNotFound, by simp [analyzeFA, hp]⟩
  · intro hp
    simp [analyzeFA, hp]
  · intro hp
    simp [getFlacCompressionLevel, analyzeLD, hp]

/-- Witness for C5: a missing path makes the probe raise `FileNotFoundError`
and the top-level function return 5. -/
theorem c5_witness :
    analyzeFA envMissingPath = .error .fileNotFound ∧
    getFlacCompressionLevel envMissingPath 0.7 = 5 :=
  ⟨(c5_probe_notfound envMissingPath 0.7).2.1 rfl,
   (c5_probe_notfound envMissingPath 0.7).2.2 rfl⟩

/-! ## Claim C6 -/

/-- C6: for an existing path, when the analysis tools are not available
`flac_level_detection.analyze_flac_file` returns the limited-analysis
dictionary holding only the file size (every stream field absent); when the
tools are available but the analysis run exits non-zero, the same
limited-analysis dictionary is returned (with the `error` key added). -/
theorem c6_limited_mode (env : Env) (hp : env.pathExists = true) :
    (env.toolsAvailable = false →
      analyzeLD env = some { file_size := env.fileSize, limited_analysis := true }) ∧
    (env.toolsAvailable = true → env.analysisOk = false →
      analyzeLD env = some { file_size := env.fileSize
                             limited_analysis := true
                             hasError := true }) := by
  constructor
  · intro ht
    simp [analyzeLD, hp, ht]
  · intro ht ha
    simp [analyzeLD, hp, ht, ha]

/-- Witness for C6 in the two concrete failure environments. -/
theorem c6_witness :
    analyzeLD envNoTools = some { file_size := 123, limited_analysis := true } ∧
    analyzeLD envFailedRun = some { file_size := 123
                                    limited_analysis := true
                                    hasError := true } :=
  ⟨(c6_limited_mode envNoTools rfl).1 rfl,
   (c6_limited_mode envFailedRun rfl).2 rfl rfl⟩

/-! ## Claim C3 -/

/-- C3, as stated, is false: the blended confidence of
`flac_analyzer.estimate_compression_level` is not clamped.  On the finite
metrics ratio 0.58, blocksizes 4096/4096, framesizes 200/20 the framesize
efficiency is 1 − 200/20 = −9 and the blend 0.7×1 + 0.2×(−9) + 0.1×0
= −1.1 lies outside [0,1]. -/
theorem c3_counterexample :
    analyzerEstimate infoBadFrame = .ok (.est 6 (-1.1) ⟨0.58, 0.42, 0, -9⟩) ∧
      ¬(0 ≤ (-1.1 : ℚ)) := by
  refine ⟨?_, by norm_num⟩
  norm_num [analyzerEstimate, analyzerTail, estCore, infoBadFrame, matchesFor,
    levelRange, levelRanges, centrality, List.range, List.range.loop,
    List.filterMap, pickBest, List.foldl, abs_of_nonneg, abs_of_nonpos]

/-- C3 amended: the blended confidence of the analyzer copy lies in [0,1]
provided the framesize metrics satisfy 0 ≤ min_framesize ≤ max_framesize
and the blocksizes are positive (as for real FLAC streams) — the code
performs no clamping, so outside those conditions the blend can leave
[0,1]; the detection copy's confidence lies in [0,1] unconditionally. -/
theorem c3_confidence_unit (info : Info) (r mnb mxb mnf mxf : ℚ)
    (hr : info.compression_ratio = some r)
    (hb1 : info.min_blocksize = some mnb) (hb2 : info.max_blocksize = some mxb)
    (hf1 : info.min_framesize = some mnf) (hf2 : info.max_framesize = some mxf)
    (hbp : 0 < mnb) (hbp2 : 0 ≤ mxb) (hfp : 0 ≤ mnf) (hfo : mnf ≤ mxf) :
    (∀ res, analyzerEstimate info = .ok res → 0 ≤ res.confOf ∧ res.confOf ≤ 1) ∧
    (0 ≤ (detectionEstimate info).2 ∧ (detectionEstimate info).2 ≤ 1) := by
  refine ⟨?_, detectionEstimate_snd_unit info⟩
  intro res hres
  simp only [analyzerEstimate, hr, hb1, hb2] at hres
  by_cases hbe : mnb = mxb
  · rw [if_pos hbe] at hres
    exact analyzerTail_conf_unit info r 0 mnf mxf (le_refl 0)
      hf1 hf2 hfp hfo res hres
  · rw [if_neg hbe, if_neg (ne_of_gt hbp)] at hres
    exact analyzerTail_conf_unit info r (mxb / mnb) mnf mxf
      (div_nonneg hbp2 (le_of_lt hbp)) hf1 hf2 hfp hfo res hres

/-- Witness for C3 on the spec's scenario metrics. -/
theorem c3_witness :
    (∀ res, analyzerEstimate info59 = .ok res →
      0 ≤ res.confOf ∧ res.confOf ≤ 1) ∧
    (0 ≤ (detectionEstimate info59).2 ∧ (detectionEstimate info59).2 ≤ 1) :=
  c3_confidence_unit info59 0.59 4096 4096 10 20 rfl rfl rfl rfl rfl
    (by norm_num) (by norm_num) (by norm_num) (by norm_num)

/-! ## Claim C4 -/

/-- C4: `flac_analyzer.estimate_compression_level` raises a `KeyError` on a
dictionary holding the three required keys but no `max_framesize` (read
unconditionally at line 111), or no `min_framesize` with a positive
`max_framesize` (line 112) — contradicting the spec's no-exception policy.
The `flac_level_detection` copy handles the same input without error. -/
theorem c4_keyerror :
    analyzerEstimate infoNoFrame = .error "KeyError: max_framesize" ∧
    analyzerEstimate infoNoMinFrame = .error "KeyError: min_framesize" ∧
    detectionEstimate infoNoFrame = (6, 0.4) := by
  refine ⟨rfl, ?_, ?_⟩ <;>
  norm_num [analyzerEstimate, analyzerTail, detectionEstimate, detectionCore,
    infoNoFrame, infoNoMinFrame, matchesFor, levelRange, levelRanges,
    centrality, List.range, List.range.loop, List.filterMap, pickBest,
    List.foldl, abs_of_nonneg, abs_of_nonpos]

/-! ## Claim C7 -/

/-- A successful parse with sample rate, channels and bit depth but no
duration line. -/
def rawNoDur : RawParsed :=
  ⟨some 44100, some 2, some 16, none, some (4096, 4096, 10, 20)⟩

/-- C7, as stated, is false: with sample_rate, channels and bits_per_sample
present but `duration` absent, the code substitutes the default duration
`'0'` and still sets `uncompressed_size` (to 0) instead of leaving it
absent. -/
theorem c7_counterexample :
    (buildInfo 1000 rawNoDur).uncompressed_size = some 0 ∧
      some (0 : ℤ) ≠ (none : Option ℤ) := by
  refine ⟨?_, by simp⟩
  norm_num [buildInfo, rawNoDur, pytrunc]

/-- C7 amended: `uncompressed_size` is present exactly when sample_rate,
channels and bits_per_sample are all present — a missing duration does not
make it absent but is read as 0 — and it then equals the truncation of
duration × sample_rate × channels × bits_per_sample/8, which is the
floor (rounding down) whenever the product is nonnegative. -/
theorem c7_uncompressed (fs : Nat) (raw : RawParsed) :
    ((buildInfo fs raw).uncompressed_size ≠ none ↔
      raw.sample_rate ≠ none ∧ raw.channels ≠ none ∧
        raw.bits_per_sample ≠ none) ∧
    (∀ sr ch bps : ℤ, raw.sample_rate = some sr → raw.channels = some ch →
      raw.bits_per_sample = some bps →
      (buildInfo fs raw).uncompressed_size =
        some (pytrunc (raw.duration.getD 0 * (sr : ℚ) * (ch : ℚ) * ((bps : ℚ) / 8)))) ∧
    (∀ q : ℚ, 0 ≤ q → pytrunc q = ⌊q⌋) := by
  refine ⟨?_, ?_, ?_⟩
  · obtain ⟨s, c, b, d, m⟩ := raw
    cases s <;> cases c <;> cases b <;> simp [buildInfo]
  · intro sr ch bps h1 h2 h3
    obtain ⟨s, c, b, d, m⟩ := raw
    simp only at h1 h2 h3
    subst h1; subst h2; subst h3
    simp [buildInfo]
  · intro q hq
    unfold pytrunc
    rw [if_neg (not_lt.mpr hq)]

/-- Witness for C7 on the duration-free parse outcome. -/
theorem c7_witness :
    (buildInfo 1000 rawNoDur).uncompressed_size =
      some (pytrunc (rawNoDur.duration.getD 0 * ((44100 : ℤ) : ℚ) *
        ((2 : ℤ) : ℚ) * (((16 : ℤ) : ℚ) / 8))) :=
  (c7_uncompressed 1000 rawNoDur).2.1 44100 2 16 rfl rfl rfl

/-! ## Claim C10 -/

/-- A dictionary with all five numeric metric keys whose `min_blocksize` is
0 while `max_blocksize` is not. -/
def infoZeroBlock : Info :=
  { file_size := 1000, compression_ratio := some 0.59,
    min_blocksize := some 0, max_blocksize := some 4096,
    min_framesize := some 10, max_framesize := some 20 }

/-- C10, as stated, is false: on the numeric dictionary with ratio 0.59,
blocksizes 0/4096 and framesizes 10/20, the `flac_analyzer` copy raises
`ZeroDivisionError` computing `max_blocksize / min_blocksize` (line 108)
and returns no level at all, while the `flac_level_detection` copy (which
never divides by the blocksizes) returns level 6 with confidence 0.6. -/
theorem c10_counterexample :
    analyzerEstimate infoZeroBlock = .error "ZeroDivisionError: division by zero" ∧
    (∀ res, analyzerEstimate infoZeroBlock ≠ .ok res) ∧
    detectionEstimate infoZeroBlock = (6, 0.6) := by
  refine ⟨?_, ?_, ?_⟩
  · norm_num [analyzerEstimate, infoZeroBlock]
  · intro res hres
    rw [show analyzerEstimate infoZeroBlock =
        .error "ZeroDivisionError: division by zero" from
      by norm_num [analyzerEstimate, infoZeroBlock]] at hres
    exact Except.noConfusion hres
  · norm_num [detectionEstimate, detectionCore, infoZeroBlock, matchesFor,
      levelRange, levelRanges, centrality, List.range, List.range.loop,
      List.filterMap, pickBest, List.foldl, abs_of_nonneg, abs_of_nonpos]

/-- C10 amended: on any dictionary holding numeric values for all five
metric keys, not flagged for limited analysis, and whose blocksizes are
equal or have a nonzero minimum (so the analyzer's blocksize division is
defined — true of all real FLAC streams), the two implementations of
`estimate_compression_level` agree on the estimated level (their
confidences may differ). -/
theorem c10_levels_agree (info : Info) (r mnb mxb mnf mxf : ℚ)
    (hlim : info.limited_analysis = false)
    (hr : info.compression_ratio = some r)
    (hb1 : info.min_blocksize = some mnb) (hb2 : info.max_blocksize = some mxb)
    (hf1 : info.min_framesize = some mnf) (hf2 : info.max_framesize = some mxf)
    (hblock : mnb = mxb ∨ mnb ≠ 0) :
    ∃ res, analyzerEstimate info = .ok res ∧
      res.levelOf = some (detectionEstimate info).1 := by
  have hdet : detectionEstimate info = detectionCore r mnb mxb := by
    simp [detectionEstimate, hlim, hr, hb1, hb2]
  rw [hdet]
  simp only [analyzerEstimate, hr, hb1, hb2]
  by_cases hbe : mnb = mxb
  · rw [if_pos hbe]
    exact analyzerTail_levelOf info r 0 mnb mxb mnf mxf hf1 hf2
  · rw [if_neg hbe, if_neg (hblock.resolve_left hbe)]
    exact analyzerTail_levelOf info r (mxb / mnb) mnb mxb mnf mxf hf1 hf2

/-- Witness for C10 on the spec's scenario dictionary. -/
theorem c10_witness :
    ∃ res, analyzerEstimate info59 = .ok res ∧
      res.levelOf = some (detectionEstimate info59).1 :=
  c10_levels_agree info59 0.59 4096 4096 10 20 rfl rfl rfl rfl rfl rfl
    (Or.inl rfl)

end FlacTool
